import Mathlib

/-!
Verification of the lightmap-bake pipeline bookkeeping in
`src/blender/bake_lightmaps.py`.

The script is orchestration code over Blender's scene-graph API.  This file
gives a shallow embedding of the pipeline's own logic — UV-layer bookkeeping,
the position-keyed UV transfer, the unwrap verification heuristic, the
light-state toggling of the bake stage, the material cleanup before export,
and the object-graph flow of `main` — and proves properties about it.
Host-side operators (the actual unwrap, vertex merge, path-traced bake,
glTF serialisation) are modelled as opaque parameters: the theorems are about
the orchestration around them, which is all the script implements itself.

Rational numbers stand in for Python floats: every claim checked here is
about control flow, bookkeeping and comparisons, not float rounding error.
-/

namespace CGV

/-- Mirrors the configuration constant `LIGHTMAP_UV_NAME = "LightmapUV"`. -/
def LIGHTMAP_UV_NAME : String := "LightmapUV"

/-- A per-loop 2D UV coordinate (`uv.uv[0]`, `uv.uv[1]`). -/
structure UVCoord where
  u : ℚ
  v : ℚ
deriving DecidableEq

/-- One UV layer of a Blender mesh: name, per-loop data, and the exclusive
`active` / `active_render` flags. -/
structure UVLayer where
  name : String
  data : List UVCoord
  active : Bool
  active_render : Bool
deriving DecidableEq

/-- A vertex position (`vertex.co`). -/
structure Vec3 where
  x : ℚ
  y : ℚ
  z : ℚ
deriving DecidableEq

/-- The mesh data block: `mesh.vertices`, `mesh.loops` (each loop stores its
`vertex_index`), `mesh.polygons` (each polygon stores its `loop_indices`),
and `mesh.uv_layers`. -/
structure MeshData where
  vertices : List Vec3
  loops : List Nat
  polygons : List (List Nat)
  uv_layers : List UVLayer
deriving DecidableEq

/-- A scene object as far as the UV stages are concerned: `obj.name`,
`obj.type` and `obj.data`. -/
structure XObject where
  name : String
  otype : String
  mesh : MeshData
deriving DecidableEq

/-! ### String containment (Python's `needle in haystack`) -/

/-- `leadsWith n h` is true when the char list `n` starts the char list `h`. -/
def leadsWith : List Char → List Char → Bool
  | [], _ => true
  | _ :: _, [] => false
  | a :: as, b :: bs => a == b && leadsWith as bs

/-- `hasSub n h` is true when `n` occurs as a contiguous run inside `h`. -/
def hasSub (needle : List Char) : List Char → Bool
  | [] => leadsWith needle []
  | c :: rest => leadsWith needle (c :: rest) || hasSub needle rest

/-- Python's substring test `needle in hay`. -/
def strContains (hay needle : String) : Bool := hasSub needle.data hay.data

/-! ### Unwrap-quality verification (`setup_uvs`, lines 493-502)

The code computes the bounding box of the (sampled) lightmap UVs and then
runs a five-way `if/elif` chain over the per-axis extents, the bounding-box
area, and the bounds themselves.  The verdict below names which of the five
log messages is emitted. -/

/-- The five mutually exclusive verdicts of the unwrap-quality check in
`setup_uvs`. -/
inductive UnwrapVerdict where
  | collapsedCritical
  | lowCoverageWarning
  | outOfBoundsWarning
  | excellent
  | acceptable
deriving DecidableEq

/-- The `if/elif` classification of `setup_uvs` (lines 493-502), taken
verbatim from the source: collapsed when either axis extent is below `0.1`;
else a low-coverage warning when the bounding-box area is below `0.1`;
else an out-of-range warning when a bound leaves `[-0.1, 1.1]`;
else excellent when the area exceeds `0.5`; else acceptable. -/
def classifyUnwrap (minU maxU minV maxV : ℚ) : UnwrapVerdict :=
  let coverage_u := maxU - minU
  let coverage_v := maxV - minV
  let total_coverage := coverage_u * coverage_v
  if coverage_u < 1/10 ∨ coverage_v < 1/10 then .collapsedCritical
  else if total_coverage < 1/10 then .lowCoverageWarning
  else if minU < -(1/10) ∨ maxU > 11/10 ∨ minV < -(1/10) ∨ maxV > 11/10 then
    .outOfBoundsWarning
  else if total_coverage > 1/2 then .excellent
  else .acceptable

/-! ### Bake-stage light toggling (`perform_bake`, lines 963-1043)

`perform_bake` stores "original" light energies and emission strengths in
two dictionaries that are **created afresh inside every call**, then sets
each light of one collection to its stored value and each light of the other
to zero.  `main` calls it twice (lines 1229-1230).  The model below keeps the
exact store-if-absent / read-back discipline of the code, including the
per-call lifetime of the dictionaries. -/

/-- An `EMISSION` shader node; `strength` is `node.inputs[1].default_value`. -/
structure EmissionNode where
  ntype : String
  strength : ℚ
deriving DecidableEq

/-- A material slot's material for the bake stage: `use_nodes` plus its
shader nodes. -/
structure LMaterial where
  use_nodes : Bool
  nodes : List EmissionNode
deriving DecidableEq

/-- An object of one of the two light collections: lights carry `energy`,
meshes carry material slots (`slot.material` may be `None`). -/
structure LObject where
  name : String
  otype : String
  energy : ℚ
  slots : List (Option LMaterial)
deriving DecidableEq

/-- The two collections handed to `perform_bake`. -/
structure BakeScene where
  lightsOn : List LObject
  lightsOff : List LObject
deriving DecidableEq

/-- `if key not in d: d[key] = v` on an association list. -/
def storeIfAbsent (d : List (String × ℚ)) (k : String) (v : ℚ) :
    List (String × ℚ) :=
  if (d.find? (fun e => e.1 == k)).isSome then d else d ++ [(k, v)]

/-- `d[key]` with a fallback (the code only reads keys it has just stored). -/
def dictGet (d : List (String × ℚ)) (k : String) (fallback : ℚ) : ℚ :=
  match d.find? (fun e => e.1 == k) with
  | some e => e.2
  | none => fallback

/-- The dictionary key `f"{obj.name}_{slot_idx}_{node_idx}"`. -/
def bakeKey (objName : String) (slotIdx nodeIdx : Nat) : String :=
  objName ++ "_" ++ toString slotIdx ++ "_" ++ toString nodeIdx

/-- The inner node loop of `perform_bake`: for every `EMISSION` node, store
its strength if the key is absent, then set it to the stored value
(`restore = true`) or to zero (`restore = false`). -/
def processNodes (restore : Bool) (objName : String) (slotIdx : Nat) :
    List (String × ℚ) → Nat → List EmissionNode →
    List (String × ℚ) × List EmissionNode
  | d, _, [] => (d, [])
  | d, nodeIdx, node :: rest =>
    if node.ntype == "EMISSION" then
      let k := bakeKey objName slotIdx nodeIdx
      let d1 := storeIfAbsent d k node.strength
      let v := if restore then dictGet d1 k node.strength else 0
      let r := processNodes restore objName slotIdx d1 (nodeIdx + 1) rest
      (r.1, { node with strength := v } :: r.2)
    else
      let r := processNodes restore objName slotIdx d (nodeIdx + 1) rest
      (r.1, node :: r.2)

/-- The material-slot loop of `perform_bake`: slots whose material exists and
has `use_nodes` get their emission nodes processed. -/
def processSlots (restore : Bool) (objName : String) :
    List (String × ℚ) → Nat → List (Option LMaterial) →
    List (String × ℚ) × List (Option LMaterial)
  | d, _, [] => (d, [])
  | d, slotIdx, slot :: rest =>
    match slot with
    | some mat =>
      if mat.use_nodes then
        let rn := processNodes restore objName slotIdx d 0 mat.nodes
        let rr := processSlots restore objName rn.1 (slotIdx + 1) rest
        (rr.1, some { mat with nodes := rn.2 } :: rr.2)
      else
        let rr := processSlots restore objName d (slotIdx + 1) rest
        (rr.1, slot :: rr.2)
    | none =>
      let rr := processSlots restore objName d (slotIdx + 1) rest
      (rr.1, slot :: rr.2)

/-- The two per-call dictionaries `original_light_energies` and
`original_emission_strengths`. -/
structure BakeDicts where
  lightD : List (String × ℚ)
  emisD : List (String × ℚ)
deriving DecidableEq

/-- One collection pass of `perform_bake`: lights get their energy stored
then restored (`restore = true`) or zeroed (`restore = false`); meshes get
their emission nodes processed the same way. -/
def processBakeObjs (restore : Bool) :
    BakeDicts → List LObject → BakeDicts × List LObject
  | d, [] => (d, [])
  | d, obj :: rest =>
    let lightStep :=
      if obj.otype == "LIGHT" then
        let d1 := storeIfAbsent d.lightD obj.name obj.energy
        (d1, if restore then dictGet d1 obj.name obj.energy else 0)
      else (d.lightD, obj.energy)
    let meshStep :=
      if obj.otype == "MESH" then
        processSlots restore obj.name d.emisD 0 obj.slots
      else (d.emisD, obj.slots)
    let r := processBakeObjs restore ⟨lightStep.1, meshStep.1⟩ rest
    (r.1, { obj with energy := lightStep.2, slots := meshStep.2 } :: r.2)

/-- The light-state half of `perform_bake` (lines 963-1043).  The two
dictionaries start **empty on every call**, exactly as in the source; when
`"On" in image_name` the ON collection is restored and the OFF collection
zeroed, otherwise the reverse. -/
def perform_bake_light_state (imageName : String) (s : BakeScene) : BakeScene :=
  let d0 : BakeDicts := ⟨[], []⟩
  if strContains imageName "On" then
    let rOn := processBakeObjs true d0 s.lightsOn
    let rOff := processBakeObjs false rOn.1 s.lightsOff
    ⟨rOn.2, rOff.2⟩
  else
    let rOn := processBakeObjs false d0 s.lightsOn
    let rOff := processBakeObjs true rOn.1 s.lightsOff
    ⟨rOn.2, rOff.2⟩

/-- The two consecutive bake calls of `main` (lines 1229-1230):
`perform_bake(..., "Mansion_Lightmap_On", ...)` followed by
`perform_bake(..., "Mansion_Lightmap_Off", ...)`. -/
def main_bake_sequence (s : BakeScene) : BakeScene :=
  perform_bake_light_state "Mansion_Lightmap_Off"
    (perform_bake_light_state "Mansion_Lightmap_On" s)

/-! ### UV-channel normalisation (`setup_uvs` lines 385-416, `join_objects`
lines 241-255)

`setup_uvs` operates on `objects[0].data`: it synthesises a base layer when
none exists, deletes every layer beyond index 0, then creates a fresh
`LightmapUV` layer flagged active and active-render (both flags are exclusive
per mesh in Blender, so setting them clears the other layers' flags).
`join_objects` removes the merge artifact layer named `"map1"` from the
joined mesh and re-asserts `LightmapUV` as active-render. -/

/-- A freshly created UV layer (`uv_layers.new(name=...)`); `dat` stands for
the host-initialised per-loop data. -/
def freshUVLayer (nm : String) (dat : List UVCoord) : UVLayer :=
  { name := nm, data := dat, active := false, active_render := false }

/-- The UV-layer bookkeeping of `setup_uvs` (lines 385-416): ensure a base
layer exists, drop every layer after index 0, then append a fresh
`LightmapUV` layer carrying the exclusive active/active-render flags.
`newDat` is the host-initialised data of the new layer (it is immediately
overwritten by the unwrap operator). -/
def setupUVLayers (newDat : List UVCoord) (layers : List UVLayer) : List UVLayer :=
  let layers1 := if layers.length = 0 then [freshUVLayer "UVMap" []] else layers
  let kept := layers1.take 1
  (kept.map (fun l => { l with active := false, active_render := false })) ++
    [{ name := LIGHTMAP_UV_NAME, data := newDat, active := true, active_render := true }]

/-- The joined-mesh layer cleanup of `join_objects` (lines 241-255): remove
the layer named `"map1"` if present, then set `LightmapUV` as the exclusive
active-render layer if present. -/
def joinCleanupLayers (layers : List UVLayer) : List UVLayer :=
  let l1 := layers.eraseP (fun l => l.name == "map1")
  if (l1.find? (fun l => l.name == LIGHTMAP_UV_NAME)).isSome then
    l1.map (fun l =>
      if l.name == LIGHTMAP_UV_NAME then { l with active_render := true }
      else { l with active_render := false })
  else l1

/-! ### Position-keyed UV transfer (`transfer_lightmap_uvs_fast`,
lines 568-645)

The code builds a dictionary from rounded vertex position to the first-seen
UV over the source mesh's polygon loops, then for every loop of every
original mesh object overwrites the `LightmapUV` coordinate when the loop's
rounded position is in the dictionary, creating the layer first when it is
missing and finally flagging it active-render. -/

/-- A rounded position key `(round(x,5), round(y,5), round(z,5))`, held as
integers scaled by `10^5`. -/
abbrev PosKey := ℤ × ℤ × ℤ

/-- Python's `round(q, 5)`, represented by the scaled integer. -/
def round5 (q : ℚ) : ℤ := round (q * 100000)

/-- The dictionary key built from a vertex position. -/
def posKey (p : Vec3) : PosKey := (round5 p.x, round5 p.y, round5 p.z)

/-- The loop indices in iteration order of
`for poly in mesh.polygons: for loop_idx in poly.loop_indices`. -/
def loopIter (polys : List (List Nat)) : List Nat :=
  polys.foldr (fun poly acc => poly ++ acc) []

/-- The `(key, uv)` pairs visited while building the lookup table, in
iteration order.  Out-of-range indices cannot occur on a well-formed Blender
mesh; they are skipped here so the function stays total. -/
def srcEntries (m : MeshData) (layer : UVLayer) : List (PosKey × UVCoord) :=
  (loopIter m.polygons).filterMap (fun li =>
    match m.loops.get? li, layer.data.get? li with
    | some vi, some uv => (m.vertices.get? vi).map (fun co => (posKey co, uv))
    | _, _ => none)

/-- Dictionary lookup `vert_to_uv.get(key)`. -/
def tblFind (tbl : List (PosKey × UVCoord)) (k : PosKey) : Option UVCoord :=
  (tbl.find? (fun e => e.1 == k)).map (fun e => e.2)

/-- `if key not in vert_to_uv: vert_to_uv[key] = uv` — first write wins. -/
def tblInsertNew (tbl : List (PosKey × UVCoord)) (k : PosKey) (uv : UVCoord) :
    List (PosKey × UVCoord) :=
  if (tblFind tbl k).isSome then tbl else tbl ++ [(k, uv)]

/-- The lookup-table construction of `transfer_lightmap_uvs_fast`
(lines 592-607). -/
def buildVertToUV (m : MeshData) (layer : UVLayer) : List (PosKey × UVCoord) :=
  (srcEntries m layer).foldl (fun tbl e => tblInsertNew tbl e.1 e.2) []

/-- The first-seen UV among the source entries for a given key — the value
the first-write-wins dictionary ends up holding. -/
def firstSeen (entries : List (PosKey × UVCoord)) (k : PosKey) : Option UVCoord :=
  (entries.find? (fun e => e.1 == k)).map (fun e => e.2)

/-- The overwrite performed (if any) for one target loop: a loop is written
exactly when its rounded vertex position is in the table. -/
def transferWriteAt (m : MeshData) (tbl : List (PosKey × UVCoord)) (li : Nat) :
    Option (Nat × UVCoord) :=
  match m.loops.get? li with
  | none => none
  | some vi =>
    match m.vertices.get? vi with
    | none => none
    | some co => (tblFind tbl (posKey co)).map (fun uv => (li, uv))

/-- The `(loop index, uv)` overwrites performed on one target mesh, in
iteration order. -/
def transferWrites (m : MeshData) (tbl : List (PosKey × UVCoord)) :
    List (Nat × UVCoord) :=
  (loopIter m.polygons).filterMap (transferWriteAt m tbl)

/-- Perform a list of indexed overwrites on per-loop UV data
(`target_uv.data[loop_idx].uv = ...`). -/
def applyWrites (ws : List (Nat × UVCoord)) (d : List UVCoord) : List UVCoord :=
  ws.foldl (fun acc w => acc.set w.1 w.2) d

/-- `if LIGHTMAP_UV_NAME not in mesh.uv_layers: mesh.uv_layers.new(...)`
(lines 619-620); `initDat` is the host-initialised data of a new layer. -/
def ensureLightmapLayer (initDat : List UVCoord) (m : MeshData) : MeshData :=
  if (m.uv_layers.find? (fun l => l.name == LIGHTMAP_UV_NAME)).isSome then m
  else { m with uv_layers := m.uv_layers ++ [freshUVLayer LIGHTMAP_UV_NAME initDat] }

/-- The per-layer effect of the transfer on the target mesh: the
`LightmapUV` layer receives the position-matched overwrites and the
exclusive active-render flag, every other layer loses the flag. -/
def transferG (ws : List (Nat × UVCoord)) (l : UVLayer) : UVLayer :=
  if l.name == LIGHTMAP_UV_NAME then
    { l with data := applyWrites ws l.data, active_render := true }
  else { l with active_render := false }

/-- The per-object body of `transfer_lightmap_uvs_fast` (lines 612-637):
ensure the layer exists, overwrite every position-matched loop, and flag
`LightmapUV` as the exclusive active-render layer. -/
def transferObject (tbl : List (PosKey × UVCoord)) (initDat : List UVCoord)
    (m : MeshData) : MeshData :=
  { ensureLightmapLayer initDat m with
    uv_layers := (ensureLightmapLayer initDat m).uv_layers.map
      (transferG (transferWrites (ensureLightmapLayer initDat m) tbl)) }

/-- `transfer_lightmap_uvs_fast(baked_object, original_objects)`
(lines 568-645): an early return when the source has no `LightmapUV` layer,
otherwise the per-object transfer applied to every mesh object.  `initData`
gives the host-initialised layer data per object name. -/
def transfer_lightmap_uvs_fast (initData : String → List UVCoord)
    (src : MeshData) (original_objects : List XObject) : List XObject :=
  match src.uv_layers.find? (fun l => l.name == LIGHTMAP_UV_NAME) with
  | none => original_objects
  | some srcLayer =>
    original_objects.map (fun o =>
      if o.otype == "MESH" then
        { o with mesh :=
            transferObject (buildVertToUV src srcLayer) (initData o.name) o.mesh }
      else o)

/-! ### Verification stage (`verify_and_fix_uv2`, lines 734-789) -/

/-- The fallback copy loop
`for loop_idx, loop in enumerate(obj.data.loops): uv2.data[i].uv = uv1.data[i].uv`:
index-by-index writes of the base layer's data over the host-initialised new
layer. -/
def copyWriteAt (srcDat : List UVCoord) (i : Nat) : Option (Nat × UVCoord) :=
  (srcDat.get? i).map (fun uv => (i, uv))

def copyLayerData (srcDat initDat : List UVCoord) (n : Nat) : List UVCoord :=
  applyWrites ((List.range n).filterMap (copyWriteAt srcDat)) initDat

/-- The per-object body of `verify_and_fix_uv2`: when `LightmapUV` exists it
is (re)flagged as the exclusive active-render layer; when it is missing and
at least one layer exists, a new `LightmapUV` layer is fabricated by copying
layer 0's per-loop data and flagged active-render; a mesh with no layers at
all is left untouched (the code's `len(obj.data.uv_layers) > 0` guard). -/
def verifyFixMesh (initDat : List UVCoord) (m : MeshData) : MeshData :=
  if (m.uv_layers.find? (fun l => l.name == LIGHTMAP_UV_NAME)).isSome then
    { m with uv_layers := m.uv_layers.map (fun l =>
        if l.name == LIGHTMAP_UV_NAME then { l with active_render := true }
        else { l with active_render := false }) }
  else
    match m.uv_layers.get? 0 with
    | none => m
    | some uv1 =>
      { m with uv_layers :=
          (m.uv_layers.map (fun l => { l with active_render := false })) ++
          [{ name := LIGHTMAP_UV_NAME,
             data := copyLayerData uv1.data initDat m.loops.length,
             active := false, active_render := true }] }

/-- `verify_and_fix_uv2(objects)` (lines 734-789): the statistics-only pass
over every mesh object; it never raises and never filters the list. -/
def verify_and_fix_uv2 (fallbackInit : String → List UVCoord)
    (objects : List XObject) : List XObject :=
  objects.map (fun o =>
    if o.otype == "MESH" then
      { o with mesh := verifyFixMesh (fallbackInit o.name) o.mesh }
    else o)

/-! ### Material cleanup and export (`clean_lightmap_nodes_from_materials`
lines 792-826, `export_mansion_glb` lines 829-913) -/

/-- A texture shader node for the export model: the value of its `node.type`
enum (the string the host reports, e.g. `'TEX_IMAGE'` or `'EMISSION'`) and
the name of the image it references (if any). -/
structure TexNode where
  ntype : String
  imageName : Option String
deriving DecidableEq

/-- A material for the export model. -/
structure GMaterial where
  name : String
  use_nodes : Bool
  nodes : List TexNode
deriving DecidableEq

/-- A scene object for the export model: its material slots
(`slot.material` may be `None`). -/
structure GObject where
  name : String
  otype : String
  materials : List (Option GMaterial)
deriving DecidableEq

/-- The image-name test of lines 814-816:
`'Lightmap' in node.image.name or name == 'Mansion_Lightmap_On' or
name == 'Mansion_Lightmap_Off'`. -/
def isLightmapImageName (n : String) : Bool :=
  strContains n "Lightmap" || n == "Mansion_Lightmap_On" ||
    n == "Mansion_Lightmap_Off"

/-- The node-removal test of lines 813-816, verbatim: the code compares
`node.type` against `'ShaderNodeTexImage'`.  That string is the node's
bl_idname — the argument the script passes to `nodes.new` — and not a value
of the host's `Node.type` enum, which reads `'TEX_IMAGE'` for image-texture
nodes (the script itself compares the enum form, `'EMISSION'`, for emission
nodes in `perform_bake`).  On the host this predicate therefore holds of no
real node. -/
def isLightmapTexNode (node : TexNode) : Bool :=
  node.ntype == "ShaderNodeTexImage" &&
    (match node.imageName with
     | some n => isLightmapImageName n
     | none => false)

/-- Node removal on one material. -/
def cleanMaterialNodes (m : GMaterial) : GMaterial :=
  { m with nodes := m.nodes.filter (fun node => !(isLightmapTexNode node)) }

/-- `clean_lightmap_nodes_from_materials(objects)` (lines 792-826): for every
mesh object, every populated material slot with `use_nodes` has the nodes
matched by `isLightmapTexNode` removed. -/
def clean_lightmap_nodes_from_materials (objs : List GObject) : List GObject :=
  objs.map (fun o =>
    if o.otype == "MESH" then
      { o with materials := o.materials.map (fun slot =>
          match slot with
          | some mat => if mat.use_nodes then some (cleanMaterialNodes mat) else slot
          | none => none) }
    else o)

/-- `export_mansion_glb` (lines 829-913) as seen by the exporter: the
recursively collected Mansion objects, after the material cleanup that the
function performs immediately before invoking the glTF operator.  The
operator itself is host-side I/O and serialises exactly this object set. -/
def export_mansion_glb (collected : List GObject) : List GObject :=
  clean_lightmap_nodes_from_materials collected

/-! ### Object-graph flow of `main` (`join_objects` lines 200-272 and
`main` lines 1172-1316)

Scene objects are referenced by name, as Blender references are modelled by
name-indexed in-place updates.  Host mesh operators (vertex merge / normal
recalculation / triangulation in `cleanup_meshes`, and the smart-project
unwrap in `setup_uvs`) are opaque mesh transformations.  The bake calls are
omitted from the flow: they touch lights and materials, never mesh data or
object visibility. -/

/-- A scene object for the `main` flow: mesh data plus the two hide flags. -/
structure PSObject where
  name : String
  otype : String
  mesh : MeshData
  hide_viewport : Bool
  hide_render : Bool
deriving DecidableEq

/-- The scene: the list of live objects. -/
abbrev Scene := List PSObject

/-- In-place mutation of the named object's mesh data. -/
def updateMeshByName (n : String) (f : MeshData → MeshData) (s : Scene) : Scene :=
  s.map (fun o => if o.name == n then { o with mesh := f o.mesh } else o)

/-- `join_objects(objects)` (lines 200-272) at the object-graph level: with
at most one object it returns the input list as both the joined set and the
original set and performs no scene mutation (lines 204-206); with more it
duplicates and joins through the host primitive `dupJoin`, returning the
joined result and the untouched originals. -/
def join_objects (dupJoin : List String → Scene → List String × Scene)
    (objectNames : List String) (s : Scene) :
    List String × List String × Scene :=
  if objectNames.length ≤ 1 then (objectNames, objectNames, s)
  else
    let r := dupJoin objectNames s
    (r.1, objectNames, r.2)

/-- `cleanup_meshes(objects)` (lines 343-370): the edit-mode vertex merge,
normal recalculation and triangulation, applied to every selected object's
mesh through the host transformation `hostClean`. -/
def cleanup_meshes (hostClean : MeshData → MeshData) (names : List String)
    (s : Scene) : Scene :=
  names.foldl (fun acc n => updateMeshByName n hostClean acc) s

/-- The scene-level effect of `setup_uvs(objects)` (lines 373-504): layer
normalisation on `objects[0].data` followed by the host unwrap+pack
operator. -/
def setup_uvs_scene (hostUnwrap : MeshData → MeshData) (newDat : List UVCoord)
    (names : List String) (s : Scene) : Scene :=
  match names with
  | [] => s
  | n0 :: _ =>
    updateMeshByName n0
      (fun m => hostUnwrap { m with uv_layers := setupUVLayers newDat m.uv_layers }) s

/-- The scene-visible effect of `export_uv_layout(obj, layer, file)`
(lines 507-542): the named layer is made the exclusive active layer before
the host writes the diagnostic image; a missing layer leaves the mesh
untouched. -/
def markActiveLayer (layerName : String) (m : MeshData) : MeshData :=
  if (m.uv_layers.find? (fun l => l.name == layerName)).isSome then
    { m with uv_layers := m.uv_layers.map (fun l =>
        if l.name == layerName then { l with active := true }
        else { l with active := false }) }
  else m

/-- `transfer_lightmap_uvs_fast(joined[0], originals)` at the scene level:
the source mesh is read once (table built before any target mutation, as in
the code), then each named target mesh object is updated in place. -/
def transfer_uvs_scene (initData : String → List UVCoord) (srcName : String)
    (targetNames : List String) (s : Scene) : Scene :=
  match s.find? (fun o => o.name == srcName) with
  | none => s
  | some srcObj =>
    match srcObj.mesh.uv_layers.find? (fun l => l.name == LIGHTMAP_UV_NAME) with
    | none => s
    | some srcLayer =>
      targetNames.foldl (fun acc n =>
        acc.map (fun o =>
          if o.name == n && o.otype == "MESH" then
            { o with mesh := transferObject (buildVertToUV srcObj.mesh srcLayer) (initData o.name) o.mesh }
          else o)) s

/-- `verify_and_fix_uv2(originals)` at the scene level. -/
def verify_uv2_scene (fallbackInit : String → List UVCoord)
    (targetNames : List String) (s : Scene) : Scene :=
  targetNames.foldl (fun acc n =>
    acc.map (fun o =>
      if o.name == n && o.otype == "MESH" then
        { o with mesh := verifyFixMesh (fallbackInit o.name) o.mesh }
      else o)) s

/-- The final hide of the baker object (lines 1259-1261). -/
def hide_baker (n : String) (s : Scene) : Scene :=
  s.map (fun o =>
    if o.name == n then { o with hide_viewport := true, hide_render := true }
    else o)

/-- The mesh- and visibility-relevant flow of `main` (lines 1186-1261):
join, cleanup of the joined set, unwrap of the joined set, the two
diagnostic UV-layout exports, the two bakes (omitted: they do not touch mesh
data or visibility), the UV transfer back to the originals, the verification
pass, and the final hide of `joined[0]`. -/
def main_object_flow (dupJoin : List String → Scene → List String × Scene)
    (hostClean hostUnwrap : MeshData → MeshData) (newDat : List UVCoord)
    (initData fallbackInit : String → List UVCoord)
    (meshNames : List String) (s : Scene) : Scene :=
  let r := join_objects dupJoin meshNames s
  let s2 := cleanup_meshes hostClean r.1 r.2.2
  let s3 := setup_uvs_scene hostUnwrap newDat r.1 s2
  match r.1 with
  | [] => s3
  | j0 :: _ =>
    let s3a := updateMeshByName j0 (markActiveLayer "UVMap") s3
    let s3b := updateMeshByName j0 (markActiveLayer LIGHTMAP_UV_NAME) s3a
    let s4 := transfer_uvs_scene initData j0 r.2.1 s3b
    let s5 := verify_uv2_scene fallbackInit r.2.1 s4
    hide_baker j0 s5

/-- The mesh transformation the single-object run applies to its one object:
cleanup, layer normalisation plus unwrap, the two active-layer marks, the
self-transfer (source and target are the same object), and the verification
pass. -/
def single_object_mesh_effect (hostClean hostUnwrap : MeshData → MeshData)
    (newDat : List UVCoord) (initData fallbackInit : String → List UVCoord)
    (objName : String) (m : MeshData) : MeshData :=
  let m2 := hostUnwrap { hostClean m with
    uv_layers := setupUVLayers newDat (hostClean m).uv_layers }
  let m2b := markActiveLayer LIGHTMAP_UV_NAME (markActiveLayer "UVMap" m2)
  let m3 :=
    match m2b.uv_layers.find? (fun l => l.name == LIGHTMAP_UV_NAME) with
    | none => m2b
    | some srcLayer =>
      transferObject (buildVertToUV m2b srcLayer) (initData objName) m2b
  verifyFixMesh (fallbackInit objName) m3

/-! ### Concrete sample scenes (used to instantiate theorems) -/

/-- The lightmap layer of the sample merged mesh. -/
def sampleSrcLayer : UVLayer :=
  { name := "LightmapUV",
    data := [⟨1, 2⟩, ⟨3, 4⟩, ⟨5, 6⟩],
    active := true, active_render := true }

/-- A one-triangle merged (bake-target) mesh. -/
def sampleSrcMesh : MeshData :=
  { vertices := [⟨0, 0, 0⟩, ⟨1, 0, 0⟩, ⟨0, 1, 0⟩],
    loops := [0, 1, 2],
    polygons := [[0, 1, 2]],
    uv_layers := [sampleSrcLayer] }

/-- The stale lightmap layer a sample original object carries before the
transfer. -/
def sampleTargetLayer : UVLayer :=
  { name := "LightmapUV",
    data := [⟨7, 7⟩, ⟨7, 7⟩, ⟨7, 7⟩],
    active := false, active_render := false }

/-- A one-triangle original object whose first vertex coincides with a
merged-mesh vertex and whose other two vertices match nothing. -/
def sampleTarget : XObject :=
  { name := "Wall", otype := "MESH",
    mesh :=
      { vertices := [⟨0, 0, 0⟩, ⟨2, 0, 0⟩, ⟨0, 2, 0⟩],
        loops := [0, 1, 2],
        polygons := [[0, 1, 2]],
        uv_layers :=
          [{ name := "UVMap", data := [⟨0, 0⟩, ⟨0, 0⟩, ⟨0, 0⟩],
             active := true, active_render := false },
           sampleTargetLayer] } }

/-- Modelled from the host API, on which the script itself relies elsewhere
(`node.type == 'EMISSION'` in `perform_bake`): a node created with
`nodes.new(type='ShaderNodeTexImage')` — as `perform_bake` creates the bake
target nodes — reports the type enum `'TEX_IMAGE'`; `'ShaderNodeTexImage'`
is only its bl_idname, the creation argument. -/
def bakedLightmapTexNode (imageName : String) : TexNode :=
  { ntype := "TEX_IMAGE", imageName := some imageName }

/-- A material carrying the image-texture node `perform_bake` assigned for
the lights-on bake, as the host represents it. -/
def sampleMatBaked : GMaterial :=
  { name := "WallMat", use_nodes := true,
    nodes := [bakedLightmapTexNode "Mansion_Lightmap_On"] }

/-- A Mansion mesh object carrying that material into the export stage. -/
def sampleGObjBaked : GObject :=
  { name := "Wall", otype := "MESH", materials := [some sampleMatBaked] }

/-- An original object that arrives without any lightmap layer. -/
def sampleBare : XObject :=
  { name := "Door", otype := "MESH",
    mesh :=
      { vertices := [⟨3, 0, 0⟩, ⟨4, 0, 0⟩, ⟨3, 1, 0⟩],
        loops := [0, 1, 2],
        polygons := [[0, 1, 2]],
        uv_layers :=
          [{ name := "UVMap", data := [⟨0, 0⟩, ⟨1, 0⟩, ⟨0, 1⟩],
             active := true, active_render := true }] } }

/-! ## Theorems -/

/-- Appending a single binding changes a lookup only for its own key, and
only when the key was absent. -/
theorem tblFind_append_single (tbl : List (PosKey × UVCoord)) (k' k : PosKey)
    (v : UVCoord) :
    tblFind (tbl ++ [(k', v)]) k =
      (tblFind tbl k).or (if k' == k then some v else none) := by
  unfold tblFind
  rw [List.find?_append]
  cases h : tbl.find? (fun e => e.1 == k) with
  | some e => simp
  | none =>
    simp only [Option.map_none, Option.none_or]
    by_cases hk : k' == k
    · simp [List.find?, hk]
    · simp [List.find?, hk]

/-- Folding first-write-wins insertions: the final binding for a key is the
initial table's binding if present, else the first-seen entry. -/
theorem tblFind_foldl_insert (entries : List (PosKey × UVCoord)) :
    ∀ (t0 : List (PosKey × UVCoord)) (k : PosKey),
      tblFind (entries.foldl (fun t e => tblInsertNew t e.1 e.2) t0) k =
        (tblFind t0 k).or (firstSeen entries k) := by
  induction entries with
  | nil =>
    intro t0 k
    simp [firstSeen, Option.or_none]
  | cons e rest ih =>
    intro t0 k
    simp only [List.foldl_cons]
    rw [ih]
    unfold tblInsertNew
    by_cases hpresent : (tblFind t0 e.1).isSome
    · rw [if_pos hpresent]
      have hfs : firstSeen (e :: rest) k =
          (if e.1 == k then some e.2 else none).or (firstSeen rest k) := by
        unfold firstSeen
        by_cases hk : e.1 == k
        · simp [List.find?, hk]
        · simp [List.find?, hk]
      rw [hfs, ← Option.or_assoc]
      congr 1
      by_cases hk : e.1 == k
      · have : e.1 = k := by exact beq_iff_eq.mp hk
        subst this
        rw [if_pos hk]
        cases h : tblFind t0 e.1 with
        | some x => simp
        | none => rw [h] at hpresent; simp at hpresent
      · rw [if_neg hk]
        simp [Option.or_none]
    · rw [if_neg hpresent]
      rw [tblFind_append_single]
      have hfs : firstSeen (e :: rest) k =
          (if e.1 == k then some e.2 else none).or (firstSeen rest k) := by
        unfold firstSeen
        by_cases hk : e.1 == k
        · simp [List.find?, hk]
        · simp [List.find?, hk]
      rw [hfs, ← Option.or_assoc]

/-- The first-write-wins lookup table holds exactly the first-seen UV per
rounded position. -/
theorem tblFind_build (m : MeshData) (layer : UVLayer) (k : PosKey) :
    tblFind (buildVertToUV m layer) k = firstSeen (srcEntries m layer) k := by
  unfold buildVertToUV
  rw [tblFind_foldl_insert]
  simp [tblFind]

/-- `get?` after `set` at the same index. -/
theorem get_set_same {α : Type} (d : List α) (i : Nat) (a : α) :
    (d.set i a).get? i = if i < d.length then some a else none := by
  induction d generalizing i with
  | nil => simp
  | cons b d ih =>
    cases i with
    | zero => simp [List.set]
    | succ j => simpa [List.set, Nat.succ_lt_succ_iff] using ih j

/-- `get?` after `set` at a different index. -/
theorem get_set_other {α : Type} (d : List α) (i j : Nat) (a : α) (h : i ≠ j) :
    (d.set i a).get? j = d.get? j := by
  induction d generalizing i j with
  | nil => simp
  | cons b d ih =>
    cases i with
    | zero =>
      cases j with
      | zero => exact absurd rfl h
      | succ j' => simp [List.set]
    | succ i' =>
      cases j with
      | zero => simp [List.set]
      | succ j' =>
        have : i' ≠ j' := fun he => h (by rw [he])
        simpa [List.set] using ih i' j' this

/-- A write list keeps the data length. -/
theorem applyWrites_length (ws : List (Nat × UVCoord)) (d : List UVCoord) :
    (applyWrites ws d).length = d.length := by
  induction ws generalizing d with
  | nil => rfl
  | cons w ws ih => simp [applyWrites, List.foldl_cons] at ih ⊢; rw [ih]; simp

/-- Indices not written by a write list are untouched. -/
theorem applyWrites_get_not_mem (ws : List (Nat × UVCoord)) (d : List UVCoord)
    (i : Nat) (h : ∀ w ∈ ws, w.1 ≠ i) :
    (applyWrites ws d).get? i = d.get? i := by
  induction ws generalizing d with
  | nil => rfl
  | cons w ws ih =>
    simp only [applyWrites, List.foldl_cons]
    have h1 : ∀ w' ∈ ws, w'.1 ≠ i := fun w' hw' => h w' (List.mem_cons_of_mem _ hw')
    have := ih (d.set w.1 w.2) h1
    simp only [applyWrites] at this
    rw [this, get_set_other _ _ _ _ (h w (List.mem_cons_self _ _))]

/-- Characterisation of a write list with no duplicate indices: each index
gets the value of its (unique) write, everything else is untouched. -/
theorem applyWrites_get (ws : List (Nat × UVCoord))
    (hnd : (ws.map Prod.fst).Nodup) (d : List UVCoord) (i : Nat) :
    (applyWrites ws d).get? i =
      match ws.find? (fun w => w.1 == i) with
      | some w => if i < d.length then some w.2 else none
      | none => d.get? i := by
  induction ws generalizing d with
  | nil => rfl
  | cons w ws ih =>
    simp only [List.map_cons, List.nodup_cons] at hnd
    simp only [applyWrites, List.foldl_cons]
    by_cases hw : w.1 == i
    · have hwi : w.1 = i := beq_iff_eq.mp hw
      rw [List.find?_cons_of_pos (p := fun w' : Nat × UVCoord => w'.1 == i) _ hw]
      have hnone : ∀ w' ∈ ws, w'.1 ≠ i := by
        intro w' hw' he
        apply hnd.1
        rw [hwi, ← he]
        exact List.mem_map_of_mem Prod.fst hw'
      have huntouched : (applyWrites ws (d.set w.1 w.2)).get? i = (d.set w.1 w.2).get? i :=
        applyWrites_get_not_mem ws _ i hnone
      simp only [applyWrites] at huntouched
      rw [huntouched, hwi, get_set_same]
    · rw [List.find?_cons_of_neg (p := fun w' : Nat × UVCoord => w'.1 == i) _ hw]
      have hne : w.1 ≠ i := fun he => hw (beq_iff_eq.mpr he)
      have := ih hnd.2 (d.set w.1 w.2)
      simp only [applyWrites] at this
      rw [this]
      cases hf : ws.find? (fun w' => w'.1 == i) with
      | some w' => simp [hf, List.length_set]
      | none =>
        simp only [hf]
        exact get_set_other _ _ _ _ hne

/-- A duplicate-free write list is idempotent. -/
theorem applyWrites_idem (ws : List (Nat × UVCoord))
    (hnd : (ws.map Prod.fst).Nodup) (d : List UVCoord) :
    applyWrites ws (applyWrites ws d) = applyWrites ws d := by
  apply List.ext_get?
  intro i
  rw [applyWrites_get ws hnd, applyWrites_get ws hnd]
  cases hf : ws.find? (fun w => w.1 == i) with
  | some w => simp [applyWrites_length]
  | none => simp

/-- Mapping the index out of an index-preserving `filterMap` yields a
sublist of the original index list. -/
theorem filterMap_fst_sublist {β : Type} (f : Nat → Option (Nat × β))
    (hf : ∀ x p, f x = some p → p.1 = x) :
    ∀ l : List Nat, ((l.filterMap f).map Prod.fst).Sublist l := by
  intro l
  induction l with
  | nil => simp
  | cons a l ih =>
    cases h : f a with
    | none =>
      rw [List.filterMap_cons_none h]
      exact ih.cons a
    | some p =>
      rw [List.filterMap_cons_some h]
      have hp : p.1 = a := hf a p h
      simpa [hp] using ih.cons₂ a

/-- An index-preserving `filterMap` over a duplicate-free index list has
duplicate-free indices. -/
theorem filterMap_fst_nodup {β : Type} (f : Nat → Option (Nat × β))
    (hf : ∀ x p, f x = some p → p.1 = x) (l : List Nat) (h : l.Nodup) :
    ((l.filterMap f).map Prod.fst).Nodup :=
  (filterMap_fst_sublist f hf l).nodup h

/-- Finding the write of a present index in an index-preserving
`filterMap`. -/
theorem find?_filterMap_self {β : Type} (f : Nat → Option (Nat × β))
    (hf : ∀ x p, f x = some p → p.1 = x) (l : List Nat) (hl : l.Nodup)
    (i : Nat) (hi : i ∈ l) (p : Nat × β) (hfi : f i = some p) :
    (l.filterMap f).find? (fun w => w.1 == i) = some p := by
  induction l with
  | nil => cases hi
  | cons a l ih =>
    rw [List.nodup_cons] at hl
    rcases List.mem_cons.mp hi with rfl | hmem
    · rw [List.filterMap_cons_some hfi]
      have hp : p.1 = i := hf i p hfi
      exact List.find?_cons_of_pos (p := fun w : Nat × _ => w.1 == i) _ (beq_iff_eq.mpr hp)
    · have hai : a ≠ i := fun he => hl.1 (he ▸ hmem)
      cases h : f a with
      | none =>
        rw [List.filterMap_cons_none h]
        exact ih hl.2 hmem
      | some q =>
        rw [List.filterMap_cons_some h]
        have hq : q.1 = a := hf a q h
        rw [List.find?_cons_of_neg (p := fun w : Nat × _ => w.1 == i) _ (by simp [hq, hai])]
        exact ih hl.2 hmem

/-- An index the function rejects is never found among the writes. -/
theorem find?_filterMap_none {β : Type} (f : Nat → Option (Nat × β))
    (hf : ∀ x p, f x = some p → p.1 = x) (l : List Nat) (i : Nat)
    (hfi : f i = none) :
    (l.filterMap f).find? (fun w => w.1 == i) = none := by
  rw [List.find?_eq_none]
  intro w hw
  rcases List.mem_filterMap.mp hw with ⟨x, _, hfx⟩
  have hx : w.1 = x := hf x w hfx
  simp only [beq_iff_eq, hx]
  intro he
  rw [he] at hfx
  rw [hfi] at hfx
  cases hfx

/-- `find?` by name commutes with a name-preserving map. -/
theorem find?_map_name (g : UVLayer → UVLayer) (hg : ∀ l, (g l).name = l.name)
    (nm : String) (ls : List UVLayer) :
    (ls.map g).find? (fun l => l.name == nm) =
      (ls.find? (fun l => l.name == nm)).map g := by
  induction ls with
  | nil => rfl
  | cons a ls ih =>
    by_cases h : a.name == nm
    · rw [List.map_cons,
        List.find?_cons_of_pos (p := fun l : UVLayer => l.name == nm) _ (by simp [hg, beq_iff_eq.mp h]),
        List.find?_cons_of_pos (p := fun l : UVLayer => l.name == nm) _ h]
      rfl
    · rw [List.map_cons,
        List.find?_cons_of_neg (p := fun l : UVLayer => l.name == nm) _ (by simp only [hg]; exact h),
        List.find?_cons_of_neg (p := fun l : UVLayer => l.name == nm) _ h]
      exact ih

/-- Claim C4 (counterexample).  The claim states that a bounding-box area
below `0.1` is reported as collapsed/critical and that an area between `0.1`
and `0.5` is reported as a low-coverage warning.  The code disagrees on both
counts: extents `0.3 × 0.3` give area `0.09 < 0.1` yet produce only the
low-coverage *warning*, and extents `0.6 × 0.4` give area `0.24 ∈ (0.1, 0.5)`
yet are reported *acceptable*, not warned about. -/
theorem C4_bands_counterexample :
    (classifyUnwrap 0 (3/10) 0 (3/10) = UnwrapVerdict.lowCoverageWarning ∧
      (3/10 - 0 : ℚ) * (3/10 - 0) < 1/10 ∧
      UnwrapVerdict.lowCoverageWarning ≠ UnwrapVerdict.collapsedCritical) ∧
    (classifyUnwrap 0 (3/5) 0 (2/5) = UnwrapVerdict.acceptable ∧
      (1/10 : ℚ) < (3/5 - 0) * (2/5 - 0) ∧ (3/5 - 0 : ℚ) * (2/5 - 0) < 1/2 ∧
      UnwrapVerdict.acceptable ≠ UnwrapVerdict.lowCoverageWarning) := by
  refine ⟨⟨?_, by norm_num, by decide⟩, ⟨?_, by norm_num, by norm_num, by decide⟩⟩
  · show classifyUnwrap 0 (3/10) 0 (3/10) = UnwrapVerdict.lowCoverageWarning
    norm_num [classifyUnwrap]
  · show classifyUnwrap 0 (3/5) 0 (2/5) = UnwrapVerdict.acceptable
    norm_num [classifyUnwrap]

/-- Case analysis of the `setup_uvs` verification chain: each verdict holds
exactly when its branch condition fires and no earlier branch did. -/
theorem classify_cases (minU maxU minV maxV : ℚ) :
    (classifyUnwrap minU maxU minV maxV = UnwrapVerdict.collapsedCritical ↔
      (maxU - minU < 1/10 ∨ maxV - minV < 1/10)) ∧
    (classifyUnwrap minU maxU minV maxV = UnwrapVerdict.lowCoverageWarning ↔
      (¬(maxU - minU < 1/10 ∨ maxV - minV < 1/10) ∧
        (maxU - minU) * (maxV - minV) < 1/10)) ∧
    (classifyUnwrap minU maxU minV maxV = UnwrapVerdict.outOfBoundsWarning ↔
      (¬(maxU - minU < 1/10 ∨ maxV - minV < 1/10) ∧
        ¬(maxU - minU) * (maxV - minV) < 1/10 ∧
        (minU < -(1/10) ∨ maxU > 11/10 ∨ minV < -(1/10) ∨ maxV > 11/10))) ∧
    (classifyUnwrap minU maxU minV maxV = UnwrapVerdict.excellent ↔
      (¬(maxU - minU < 1/10 ∨ maxV - minV < 1/10) ∧
        ¬(maxU - minU) * (maxV - minV) < 1/10 ∧
        ¬(minU < -(1/10) ∨ maxU > 11/10 ∨ minV < -(1/10) ∨ maxV > 11/10) ∧
        (maxU - minU) * (maxV - minV) > 1/2)) := by
  simp only [classifyUnwrap]
  by_cases hA : maxU - minU < 1/10 ∨ maxV - minV < 1/10
  · rw [if_pos hA]
    refine ⟨?_, ?_, ?_, ?_⟩ <;> simp_all
  · rw [if_neg hA]
    by_cases hB : (maxU - minU) * (maxV - minV) < 1/10
    · rw [if_pos hB]
      refine ⟨?_, ?_, ?_, ?_⟩ <;> simp_all
    · rw [if_neg hB]
      by_cases hC : minU < -(1/10) ∨ maxU > 11/10 ∨ minV < -(1/10) ∨ maxV > 11/10
      · rw [if_pos hC]
        refine ⟨?_, ?_, ?_, ?_⟩ <;> simp_all
      · rw [if_neg hC]
        by_cases hD : (maxU - minU) * (maxV - minV) > 1/2
        · rw [if_pos hD]
          refine ⟨?_, ?_, ?_, ?_⟩ <;> simp_all
        · rw [if_neg hD]
          refine ⟨?_, ?_, ?_, ?_⟩ <;> simp_all

/-- A degenerate (single-point) bounding box is classified as collapsed. -/
theorem classify_point (a b : ℚ) :
    classifyUnwrap a a b b = UnwrapVerdict.collapsedCritical := by
  norm_num [classifyUnwrap]

/-- The full unit square is classified as excellent. -/
theorem classify_unit_square : classifyUnwrap 0 1 0 1 = UnwrapVerdict.excellent := by
  norm_num [classifyUnwrap]

/-- Claim C4 (amended).  The unwrap verification classifies from the sampled
UV bounding box in this order: either axis extent below `0.1` is critical
("collapsed"); otherwise bounding-box area below `0.1` is a low-coverage
warning; otherwise any bound outside `[-0.1, 1.1]` is an out-of-range
warning; otherwise area above `0.5` is excellent and the rest is acceptable.
A degenerate (single-point) box classifies as critical and the full unit
square classifies as excellent. -/
theorem C4_classifier_characterisation (minU maxU minV maxV : ℚ) :
    (classifyUnwrap minU maxU minV maxV = UnwrapVerdict.collapsedCritical ↔
      (maxU - minU < 1/10 ∨ maxV - minV < 1/10)) ∧
    (classifyUnwrap minU maxU minV maxV = UnwrapVerdict.lowCoverageWarning ↔
      (¬(maxU - minU < 1/10 ∨ maxV - minV < 1/10) ∧
        (maxU - minU) * (maxV - minV) < 1/10)) ∧
    (classifyUnwrap minU maxU minV maxV = UnwrapVerdict.outOfBoundsWarning ↔
      (¬(maxU - minU < 1/10 ∨ maxV - minV < 1/10) ∧
        ¬(maxU - minU) * (maxV - minV) < 1/10 ∧
        (minU < -(1/10) ∨ maxU > 11/10 ∨ minV < -(1/10) ∨ maxV > 11/10))) ∧
    (classifyUnwrap minU maxU minV maxV = UnwrapVerdict.excellent ↔
      (¬(maxU - minU < 1/10 ∨ maxV - minV < 1/10) ∧
        ¬(maxU - minU) * (maxV - minV) < 1/10 ∧
        ¬(minU < -(1/10) ∨ maxU > 11/10 ∨ minV < -(1/10) ∨ maxV > 11/10) ∧
        (maxU - minU) * (maxV - minV) > 1/2)) ∧
    (classifyUnwrap minU minU minV minV = UnwrapVerdict.collapsedCritical) ∧
    (classifyUnwrap 0 1 0 1 = UnwrapVerdict.excellent) := by
  refine ⟨?_, ?_, ?_, ?_, ?_, ?_⟩
  · exact (classify_cases minU maxU minV maxV).1
  · exact (classify_cases minU maxU minV maxV).2.1
  · exact (classify_cases minU maxU minV maxV).2.2.1
  · exact (classify_cases minU maxU minV maxV).2.2.2
  · exact classify_point minU minV
  · exact classify_unit_square

/-- Claim C1 (code-bug evidence).  A light that lives in the `Lights_OFF`
collection with original energy `5` is zeroed by the first bake
(`Mansion_Lightmap_On`).  Because `original_light_energies` is a fresh empty
dictionary in every `perform_bake` call, the second bake
(`Mansion_Lightmap_Off`) captures the already-zeroed value `0` as the
"original" and "restores" the light to `0` instead of `5` — so the light that
should be on for the second bake stays dark. -/
theorem C1_off_lights_lost_on_second_bake :
    (main_bake_sequence
        { lightsOn := [],
          lightsOff := [{ name := "Lamp", otype := "LIGHT", energy := 5, slots := [] }] }
      ).lightsOff.map LObject.energy = [0] ∧ (5 : ℚ) ≠ 0 := by
  constructor
  · decide
  · norm_num

/-- Claim C5.  `join_objects` on a collection of exactly one object returns
that object as both the merged set and the original set and leaves the scene
— object count, geometry, UV data — untouched: no duplication and no join
happen (lines 204-206). -/
theorem C5_join_single_object_noop
    (dupJoin : List String → Scene → List String × Scene) (n : String)
    (s : Scene) :
    join_objects dupJoin [n] s = ([n], [n], s) := by
  simp [join_objects]

/-- Surviving elements of the `map1` erasure never carry the name `map1`
when layer names are unique (as they are in Blender). -/
theorem eraseP_map1_not_mem (ls : List UVLayer)
    (hnd : (ls.map UVLayer.name).Nodup) :
    ∀ l ∈ ls.eraseP (fun l => l.name == "map1"), l.name ≠ "map1" := by
  induction ls with
  | nil => intro l hl; simp at hl
  | cons a ls ih =>
    intro l hl
    rw [List.map_cons, List.nodup_cons] at hnd
    by_cases h : a.name == "map1"
    · rw [List.eraseP_cons_of_pos (p := fun l : UVLayer => l.name == "map1") h] at hl
      intro he
      apply hnd.1
      rw [beq_iff_eq.mp h, ← he]
      exact List.mem_map_of_mem UVLayer.name hl
    · rw [List.eraseP_cons_of_neg (p := fun l : UVLayer => l.name == "map1") h] at hl
      rcases List.mem_cons.mp hl with rfl | hl'
      · exact fun he => h (beq_iff_eq.mpr he)
      · exact ih hnd.2 l hl'

/-- No layer of the join cleanup result is named `map1`. -/
theorem joinCleanup_no_map1 (layers : List UVLayer)
    (hnd : (layers.map UVLayer.name).Nodup) :
    ∀ l ∈ joinCleanupLayers layers, l.name ≠ "map1" := by
  intro l hl
  unfold joinCleanupLayers at hl
  by_cases hfind : ((layers.eraseP (fun l => l.name == "map1")).find?
      (fun l => l.name == LIGHTMAP_UV_NAME)).isSome
  · rw [if_pos hfind] at hl
    rcases List.mem_map.mp hl with ⟨l0, hl0, rfl⟩
    have h0 := eraseP_map1_not_mem layers hnd l0 hl0
    by_cases hn : l0.name == LIGHTMAP_UV_NAME <;> simp [hn, h0]
  · rw [if_neg hfind] at hl
    exact eraseP_map1_not_mem layers hnd l hl

/-- The normalisation of `setup_uvs` always produces exactly the preserved
base layer (a fresh `UVMap` when none existed) followed by the fresh
`LightmapUV` layer. -/
theorem setupUVLayers_structure (newDat : List UVCoord) :
    ∀ ls : List UVLayer,
      (setupUVLayers newDat ls = match ls with
        | [] => [{ name := "UVMap", data := [], active := false, active_render := false },
                 { name := LIGHTMAP_UV_NAME, data := newDat, active := true, active_render := true }]
        | b :: _ => [{ b with active := false, active_render := false },
                     { name := LIGHTMAP_UV_NAME, data := newDat, active := true, active_render := true }]) := by
  intro ls
  cases ls with
  | nil => simp [setupUVLayers, freshUVLayer]
  | cons b rest => simp [setupUVLayers, freshUVLayer]

/-- Claim C2.  The mesh processed by the UV-channel normalisation (the
`map1` cleanup of `join_objects` followed by the layer reset of `setup_uvs`)
ends with exactly two UV channels — which satisfies the claimed "exactly 1
or exactly 2, never more" — where channel 0 is the preserved base channel
(name and data intact; a fresh empty `UVMap` when no channel existed),
channel 1 is named `LightmapUV`, and no channel named `map1` survives. -/
theorem C2_uv_channel_normalisation (layers : List UVLayer)
    (newDat : List UVCoord) (hnd : (layers.map UVLayer.name).Nodup) :
    ((setupUVLayers newDat (joinCleanupLayers layers)).length = 1 ∨
      (setupUVLayers newDat (joinCleanupLayers layers)).length = 2) ∧
    (setupUVLayers newDat (joinCleanupLayers layers)).length = 2 ∧
    ((setupUVLayers newDat (joinCleanupLayers layers)).get? 1).map UVLayer.name =
      some LIGHTMAP_UV_NAME ∧
    ((setupUVLayers newDat (joinCleanupLayers layers)).all
      (fun l => !(l.name == "map1"))) = true ∧
    ((setupUVLayers newDat (joinCleanupLayers layers)).get? 0).map
        (fun l => (l.name, l.data)) =
      (((joinCleanupLayers layers).get? 0).map (fun l => (l.name, l.data))).or
        (some ("UVMap", [])) := by
  have hstruct := setupUVLayers_structure newDat (joinCleanupLayers layers)
  have hnomap1 := joinCleanup_no_map1 layers hnd
  cases hcl : joinCleanupLayers layers with
  | nil =>
    rw [hcl] at hstruct
    refine ⟨Or.inr ?_, ?_, ?_, ?_, ?_⟩ <;> simp [hstruct, LIGHTMAP_UV_NAME]
  | cons b rest =>
    rw [hcl] at hstruct
    have hb : b.name ≠ "map1" := by
      apply hnomap1
      rw [hcl]
      exact List.mem_cons_self b rest
    refine ⟨Or.inr ?_, ?_, ?_, ?_, ?_⟩ <;>
      simp [hstruct, LIGHTMAP_UV_NAME, hb]

/-- Claim C2 witness: a joined mesh arriving with a base channel, a stray
`map1` channel and a stale `LightmapUV` channel is normalised to exactly
base + `LightmapUV`. -/
theorem C2_uv_channel_normalisation_witness :
    (([{ name := "UVMap", data := [⟨0, 0⟩], active := true, active_render := true },
       { name := "map1", data := [⟨0, 0⟩], active := false, active_render := false },
       { name := "LightmapUV", data := [⟨0, 0⟩], active := false, active_render := false }] :
        List UVLayer).map UVLayer.name).Nodup ∧
    ((setupUVLayers []
        (joinCleanupLayers
          [{ name := "UVMap", data := [⟨0, 0⟩], active := true, active_render := true },
           { name := "map1", data := [⟨0, 0⟩], active := false, active_render := false },
           { name := "LightmapUV", data := [⟨0, 0⟩], active := false, active_render := false }])).length = 1 ∨
      (setupUVLayers []
        (joinCleanupLayers
          [{ name := "UVMap", data := [⟨0, 0⟩], active := true, active_render := true },
           { name := "map1", data := [⟨0, 0⟩], active := false, active_render := false },
           { name := "LightmapUV", data := [⟨0, 0⟩], active := false, active_render := false }])).length = 2) :=
  ⟨by decide,
    (C2_uv_channel_normalisation
      [{ name := "UVMap", data := [⟨0, 0⟩], active := true, active_render := true },
       { name := "map1", data := [⟨0, 0⟩], active := false, active_render := false },
       { name := "LightmapUV", data := [⟨0, 0⟩], active := false, active_render := false }]
      [] (by decide)).1⟩

/-- Geometry fields are untouched by the per-object transfer. -/
theorem transferObject_geometry (tbl : List (PosKey × UVCoord))
    (initDat : List UVCoord) (m : MeshData) :
    (transferObject tbl initDat m).polygons = m.polygons ∧
    (transferObject tbl initDat m).loops = m.loops ∧
    (transferObject tbl initDat m).vertices = m.vertices := by
  unfold transferObject ensureLightmapLayer
  by_cases h : (m.uv_layers.find? (fun l => l.name == LIGHTMAP_UV_NAME)).isSome <;>
    simp [h]

/-- The per-layer update of the transfer preserves layer names. -/
theorem transferG_name (ws : List (Nat × UVCoord)) (l : UVLayer) :
    (transferG ws l).name = l.name := by
  unfold transferG
  by_cases h : l.name == LIGHTMAP_UV_NAME <;> simp [h]

/-- The per-layer geometry of the ensure step is untouched. -/
theorem ensure_geometry (initDat : List UVCoord) (m : MeshData) :
    (ensureLightmapLayer initDat m).polygons = m.polygons ∧
    (ensureLightmapLayer initDat m).loops = m.loops ∧
    (ensureLightmapLayer initDat m).vertices = m.vertices := by
  unfold ensureLightmapLayer
  by_cases h : (m.uv_layers.find? (fun l => l.name == LIGHTMAP_UV_NAME)).isSome <;>
    simp [h]

/-- The transfer writes are the same whether computed on the mesh before or
after the ensure step. -/
theorem transferWrites_ensure (tbl : List (PosKey × UVCoord))
    (initDat : List UVCoord) (m : MeshData) :
    transferWrites (ensureLightmapLayer initDat m) tbl = transferWrites m tbl := by
  have hg := ensure_geometry initDat m
  unfold transferWrites
  rw [hg.1]
  have hfun : transferWriteAt (ensureLightmapLayer initDat m) tbl =
      transferWriteAt m tbl := by
    funext li
    unfold transferWriteAt
    rw [hg.2.1, hg.2.2]
  rw [hfun]

/-- After the per-object transfer, the mesh has a `LightmapUV` layer and it
is flagged active-render — whether or not any position matched. -/
theorem transferObject_layer_flag (tbl : List (PosKey × UVCoord))
    (initDat : List UVCoord) (m : MeshData) :
    ((transferObject tbl initDat m).uv_layers.find?
        (fun l => l.name == LIGHTMAP_UV_NAME)).map UVLayer.active_render =
      some true := by
  have hpres : ((ensureLightmapLayer initDat m).uv_layers.find?
      (fun l => l.name == LIGHTMAP_UV_NAME)).isSome := by
    unfold ensureLightmapLayer
    by_cases h : (m.uv_layers.find? (fun l => l.name == LIGHTMAP_UV_NAME)).isSome
    · rw [if_pos h]; exact h
    · rw [if_neg h]
      simp only [List.find?_append, Option.not_isSome_iff_eq_none.mp h,
        Option.none_or]
      simp [List.find?, freshUVLayer, LIGHTMAP_UV_NAME]
  obtain ⟨L, hL⟩ := Option.isSome_iff_exists.mp hpres
  unfold transferObject
  rw [find?_map_name _ (transferG_name (transferWrites (ensureLightmapLayer initDat m) tbl)), hL]
  have hname := List.find?_some hL
  simp [transferG, beq_iff_eq.mp hname]

/-- Claim C9.  The fast transfer itself guarantees channel presence: as soon
as the merged source mesh has a `LightmapUV` layer, every original mesh
object comes out of `transfer_lightmap_uvs_fast` with a `LightmapUV` layer
flagged active-render, with no assumption that any of its rounded vertex
positions occurs in the source lookup table. -/
theorem C9_transfer_guarantees_channel (initData : String → List UVCoord)
    (src : MeshData) (srcLayer : UVLayer) (objects : List XObject) (o : XObject)
    (hsrc : src.uv_layers.find? (fun l => l.name == LIGHTMAP_UV_NAME) = some srcLayer)
    (ho : o ∈ objects) (hm : o.otype = "MESH") :
    ({ o with mesh := transferObject (buildVertToUV src srcLayer) (initData o.name) o.mesh } ∈
        transfer_lightmap_uvs_fast initData src objects) ∧
    (((transferObject (buildVertToUV src srcLayer) (initData o.name) o.mesh).uv_layers.find?
        (fun l => l.name == LIGHTMAP_UV_NAME)).map UVLayer.active_render = some true) := by
  constructor
  · unfold transfer_lightmap_uvs_fast
    rw [hsrc]
    apply List.mem_map.mpr
    exact ⟨o, ho, by simp [hm]⟩
  · exact transferObject_layer_flag _ _ _

/-- Claim C9 witness: a bare original object (no lightmap layer, no matching
vertex position at all) still ends up with an active-render `LightmapUV`
layer. -/
theorem C9_transfer_guarantees_channel_witness :
    ({ sampleBare with
        mesh := transferObject (buildVertToUV sampleSrcMesh sampleSrcLayer)
          ((fun _ => []) sampleBare.name) sampleBare.mesh } ∈
      transfer_lightmap_uvs_fast (fun _ => []) sampleSrcMesh [sampleBare]) ∧
    (((transferObject (buildVertToUV sampleSrcMesh sampleSrcLayer)
        ((fun _ => []) sampleBare.name) sampleBare.mesh).uv_layers.find?
          (fun l => l.name == LIGHTMAP_UV_NAME)).map UVLayer.active_render = some true) :=
  C9_transfer_guarantees_channel (fun _ => []) sampleSrcMesh sampleSrcLayer
    [sampleBare] sampleBare (by decide) (by decide) (by decide)

/-- A produced write always carries its own loop index. -/
theorem transferWriteAt_index (m : MeshData) (tbl : List (PosKey × UVCoord))
    (x : Nat) (p : Nat × UVCoord) (h : transferWriteAt m tbl x = some p) :
    p.1 = x := by
  unfold transferWriteAt at h
  split at h
  · cases h
  · split at h
    · cases h
    · obtain ⟨uv, _, hp⟩ := Option.map_eq_some'.mp h
      rw [← hp]

/-- Pointwise description of the per-object transfer on a mesh that already
has a `LightmapUV` layer: a loop whose rounded position is in the table
receives the table's UV, any other loop keeps its previous UV. -/
theorem transferObject_data_at (tbl : List (PosKey × UVCoord))
    (initDat : List UVCoord) (m : MeshData) (L : UVLayer) (li vi : Nat)
    (co : Vec3)
    (hlayer : m.uv_layers.find? (fun l => l.name == LIGHTMAP_UV_NAME) = some L)
    (hnd : (loopIter m.polygons).Nodup)
    (hli : li ∈ loopIter m.polygons)
    (hvi : m.loops.get? li = some vi)
    (hco : m.vertices.get? vi = some co)
    (hbound : li < L.data.length) :
    ((transferObject tbl initDat m).uv_layers.find?
        (fun l => l.name == LIGHTMAP_UV_NAME)).bind (fun l => l.data.get? li) =
      (tblFind tbl (posKey co)).or (L.data.get? li) := by
  have hens : ensureLightmapLayer initDat m = m := by
    unfold ensureLightmapLayer
    rw [if_pos (by rw [hlayer]; rfl)]
  unfold transferObject
  rw [hens]
  rw [find?_map_name _ (transferG_name (transferWrites m tbl)), hlayer]
  have hname := List.find?_some hlayer
  simp only [Option.map_some', Option.some_bind]
  unfold transferG
  rw [if_pos hname]
  show (applyWrites (transferWrites m tbl) L.data).get? li =
    (tblFind tbl (posKey co)).or (L.data.get? li)
  have hwnodup : ((transferWrites m tbl).map Prod.fst).Nodup := by
    unfold transferWrites
    exact filterMap_fst_nodup (transferWriteAt m tbl) (transferWriteAt_index m tbl) _ hnd
  rw [applyWrites_get _ hwnodup]
  cases ht : tblFind tbl (posKey co) with
  | some uv =>
    have hwli : transferWriteAt m tbl li = some (li, uv) := by
      simp only [transferWriteAt, hvi, hco, ht, Option.map_some']
    have hfind : (transferWrites m tbl).find? (fun w => w.1 == li) = some (li, uv) := by
      unfold transferWrites
      exact find?_filterMap_self (transferWriteAt m tbl) (transferWriteAt_index m tbl)
        _ hnd li hli (li, uv) hwli
    rw [hfind]
    simp [hbound]
  | none =>
    have hwli : transferWriteAt m tbl li = none := by
      simp only [transferWriteAt, hvi, hco, ht, Option.map_none']
    have hfind : (transferWrites m tbl).find? (fun w => w.1 == li) = none := by
      unfold transferWrites
      exact find?_filterMap_none (transferWriteAt m tbl) (transferWriteAt_index m tbl)
        _ li hwli
    rw [hfind]
    simp

/-- Claim C3.  For every original mesh object and every loop of it: when the
loop's rounded vertex position occurs among the merged mesh's loop
positions, the transferred `LightmapUV` coordinate is the merged mesh's
first-seen UV at that position, and when it occurs nowhere, the loop keeps
exactly the UV it had before the transfer (`.or` folds the two cases: the
first-seen lookup when it hits, the pre-transfer value when it misses). -/
theorem C3_transfer_pointwise (initData : String → List UVCoord)
    (src : MeshData) (srcLayer : UVLayer) (objects : List XObject)
    (o : XObject) (L : UVLayer) (li vi : Nat) (co : Vec3)
    (hsrc : src.uv_layers.find? (fun l => l.name == LIGHTMAP_UV_NAME) = some srcLayer)
    (ho : o ∈ objects) (hm : o.otype = "MESH")
    (hlayer : o.mesh.uv_layers.find? (fun l => l.name == LIGHTMAP_UV_NAME) = some L)
    (hLlen : L.data.length = o.mesh.loops.length)
    (hnd : (loopIter o.mesh.polygons).Nodup)
    (hli : li ∈ loopIter o.mesh.polygons)
    (hvi : o.mesh.loops.get? li = some vi)
    (hco : o.mesh.vertices.get? vi = some co) :
    ({ o with mesh := transferObject (buildVertToUV src srcLayer) (initData o.name) o.mesh } ∈
        transfer_lightmap_uvs_fast initData src objects) ∧
    (((transferObject (buildVertToUV src srcLayer) (initData o.name) o.mesh).uv_layers.find?
        (fun l => l.name == LIGHTMAP_UV_NAME)).bind (fun l => l.data.get? li) =
      (firstSeen (srcEntries src srcLayer) (posKey co)).or (L.data.get? li)) := by
  constructor
  · unfold transfer_lightmap_uvs_fast
    rw [hsrc]
    apply List.mem_map.mpr
    exact ⟨o, ho, by simp [hm]⟩
  · have hbound : li < L.data.length := by
      rw [hLlen]
      by_contra hc
      rw [List.get?_eq_none.mpr (Nat.le_of_not_lt hc)] at hvi
      cases hvi
    rw [transferObject_data_at (buildVertToUV src srcLayer) (initData o.name)
      o.mesh L li vi co hlayer hnd hli hvi hco hbound]
    rw [tblFind_build]

/-- Claim C3 witness: the first loop of the sample target sits at the merged
vertex `(0,0,0)`, so its transferred UV is governed by the merged mesh's
first-seen UV there; the second loop sits at `(2,0,0)`, which matches
nothing, so it is governed by its pre-transfer value. -/
theorem C3_transfer_pointwise_witness :
    (((transferObject (buildVertToUV sampleSrcMesh sampleSrcLayer)
        ((fun _ => []) sampleTarget.name) sampleTarget.mesh).uv_layers.find?
          (fun l => l.name == LIGHTMAP_UV_NAME)).bind (fun l => l.data.get? 0) =
      (firstSeen (srcEntries sampleSrcMesh sampleSrcLayer)
        (posKey ⟨0, 0, 0⟩)).or (sampleTargetLayer.data.get? 0)) ∧
    (((transferObject (buildVertToUV sampleSrcMesh sampleSrcLayer)
        ((fun _ => []) sampleTarget.name) sampleTarget.mesh).uv_layers.find?
          (fun l => l.name == LIGHTMAP_UV_NAME)).bind (fun l => l.data.get? 1) =
      (firstSeen (srcEntries sampleSrcMesh sampleSrcLayer)
        (posKey ⟨2, 0, 0⟩)).or (sampleTargetLayer.data.get? 1)) :=
  ⟨(C3_transfer_pointwise (fun _ => []) sampleSrcMesh sampleSrcLayer
      [sampleTarget] sampleTarget sampleTargetLayer 0 0 ⟨0, 0, 0⟩
      (by decide) (by decide) (by decide) (by decide) (by decide) (by decide)
      (by decide) (by decide) (by decide)).2,
   (C3_transfer_pointwise (fun _ => []) sampleSrcMesh sampleSrcLayer
      [sampleTarget] sampleTarget sampleTargetLayer 1 1 ⟨2, 0, 0⟩
      (by decide) (by decide) (by decide) (by decide) (by decide) (by decide)
      (by decide) (by decide) (by decide)).2⟩

/-- The per-object transfer is idempotent on any mesh whose loop iteration
visits no loop index twice. -/
theorem transferObject_idem (tbl : List (PosKey × UVCoord))
    (initDat : List UVCoord) (m : MeshData)
    (hnd : (loopIter m.polygons).Nodup) :
    transferObject tbl initDat (transferObject tbl initDat m) =
      transferObject tbl initDat m := by
  have hflag := transferObject_layer_flag tbl initDat m
  have hpres : ((transferObject tbl initDat m).uv_layers.find?
      (fun l => l.name == LIGHTMAP_UV_NAME)).isSome := by
    cases hf : (transferObject tbl initDat m).uv_layers.find?
        (fun l => l.name == LIGHTMAP_UV_NAME) with
    | none => rw [hf] at hflag; cases hflag
    | some L => rfl
  have hgeom := transferObject_geometry tbl initDat m
  have hens2 : ensureLightmapLayer initDat (transferObject tbl initDat m) =
      transferObject tbl initDat m := by
    unfold ensureLightmapLayer
    rw [if_pos hpres]
  have hwrites : transferWrites (transferObject tbl initDat m) tbl =
      transferWrites m tbl := by
    unfold transferWrites
    rw [hgeom.1]
    have hfun : transferWriteAt (transferObject tbl initDat m) tbl =
        transferWriteAt m tbl := by
      funext li
      unfold transferWriteAt
      rw [hgeom.2.1, hgeom.2.2]
    rw [hfun]
  have hwnodup : ((transferWrites m tbl).map Prod.fst).Nodup := by
    unfold transferWrites
    exact filterMap_fst_nodup (transferWriteAt m tbl) (transferWriteAt_index m tbl) _ hnd
  have hgg : ∀ l : UVLayer,
      transferG (transferWrites m tbl) (transferG (transferWrites m tbl) l) =
        transferG (transferWrites m tbl) l := by
    intro l
    unfold transferG
    by_cases h : l.name == LIGHTMAP_UV_NAME
    · rw [if_pos h]
      rw [if_pos (by exact h)]
      rw [applyWrites_idem _ hwnodup]
    · rw [if_neg h]
      rw [if_neg (by exact h)]
  have hlayers : (transferObject tbl initDat m).uv_layers.map
      (transferG (transferWrites m tbl)) = (transferObject tbl initDat m).uv_layers := by
    show ((ensureLightmapLayer initDat m).uv_layers.map
        (transferG (transferWrites (ensureLightmapLayer initDat m) tbl))).map
        (transferG (transferWrites m tbl)) = _
    rw [transferWrites_ensure, List.map_map]
    have : (ensureLightmapLayer initDat m).uv_layers.map
        (transferG (transferWrites m tbl) ∘ transferG (transferWrites m tbl)) =
        (ensureLightmapLayer initDat m).uv_layers.map (transferG (transferWrites m tbl)) := by
      apply List.map_congr_left
      intro l _
      exact hgg l
    rw [this]
    show _ = ((ensureLightmapLayer initDat m).uv_layers.map
        (transferG (transferWrites (ensureLightmapLayer initDat m) tbl)))
    rw [transferWrites_ensure]
  conv_lhs => rw [transferObject.eq_def]
  rw [hens2, hwrites, hlayers]

/-- Claim C6.  The fast UV transfer is idempotent: running it twice from the
same unchanged merged source over the same original objects leaves exactly
the state of one run. -/
theorem C6_transfer_idempotent (initData : String → List UVCoord)
    (src : MeshData) (objects : List XObject)
    (hnd : ∀ o ∈ objects, (loopIter o.mesh.polygons).Nodup) :
    transfer_lightmap_uvs_fast initData src
        (transfer_lightmap_uvs_fast initData src objects) =
      transfer_lightmap_uvs_fast initData src objects := by
  cases hs : src.uv_layers.find? (fun l => l.name == LIGHTMAP_UV_NAME) with
  | none => simp only [transfer_lightmap_uvs_fast, hs]
  | some srcLayer =>
    simp only [transfer_lightmap_uvs_fast, hs]
    rw [List.map_map]
    apply List.map_congr_left
    intro o ho
    simp only [Function.comp]
    by_cases hmesh : o.otype == "MESH"
    · simp only [hmesh, if_true]
      congr 1
      exact transferObject_idem _ _ _ (hnd o ho)
    · simp [hmesh]

/-- Claim C6 witness: one transfer run over the sample pair is a fixed point
of a second run. -/
theorem C6_transfer_idempotent_witness :
    transfer_lightmap_uvs_fast (fun _ => []) sampleSrcMesh
        (transfer_lightmap_uvs_fast (fun _ => []) sampleSrcMesh
          [sampleTarget, sampleBare]) =
      transfer_lightmap_uvs_fast (fun _ => []) sampleSrcMesh
        [sampleTarget, sampleBare] :=
  C6_transfer_idempotent (fun _ => []) sampleSrcMesh [sampleTarget, sampleBare]
    (by decide)

/-- A copy write always carries its own loop index. -/
theorem copyWriteAt_index (srcDat : List UVCoord) (x : Nat) (p : Nat × UVCoord)
    (h : copyWriteAt srcDat x = some p) : p.1 = x := by
  unfold copyWriteAt at h
  obtain ⟨uv, _, hp⟩ := Option.map_eq_some'.mp h
  rw [← hp]

/-- The index-by-index fallback copy reproduces the base layer's data when
the lengths line up (as they always do on a well-formed Blender mesh). -/
theorem copyLayerData_id (srcDat initDat : List UVCoord) (n : Nat)
    (hs : srcDat.length = n) (hi : initDat.length = n) :
    copyLayerData srcDat initDat n = srcDat := by
  have hwnodup : (((List.range n).filterMap (copyWriteAt srcDat)).map Prod.fst).Nodup :=
    filterMap_fst_nodup (copyWriteAt srcDat) (copyWriteAt_index srcDat) _
      (List.nodup_range n)
  apply List.ext_get?
  intro i
  unfold copyLayerData
  rw [applyWrites_get _ hwnodup]
  by_cases h : i < n
  · cases hv : srcDat.get? i with
    | none =>
      rw [List.get?_eq_none] at hv
      omega
    | some v =>
      have hwi : copyWriteAt srcDat i = some (i, v) := by
        simp only [copyWriteAt, hv, Option.map_some']
      rw [find?_filterMap_self (copyWriteAt srcDat) (copyWriteAt_index srcDat)
        _ (List.nodup_range n) i (List.mem_range.mpr h) (i, v) hwi]
      simp [hi, h]
  · have hvn : srcDat.get? i = none := List.get?_eq_none.mpr (by omega)
    have hwi : copyWriteAt srcDat i = none := by
      simp only [copyWriteAt, hvn, Option.map_none']
    rw [find?_filterMap_none (copyWriteAt srcDat) (copyWriteAt_index srcDat)
      _ i hwi]
    rw [hvn, List.get?_eq_none.mpr (by omega)]

/-- The per-layer flag update of `verify_and_fix_uv2` preserves names. -/
theorem verifyG_name (l : UVLayer) :
    ((fun l : UVLayer =>
      if l.name == LIGHTMAP_UV_NAME then { l with active_render := true }
      else { l with active_render := false }) l).name = l.name := by
  by_cases h : l.name == LIGHTMAP_UV_NAME <;> simp [h]

/-- The flag-clear map of the fabrication branch preserves names. -/
theorem clearG_name (l : UVLayer) :
    ((fun l : UVLayer => { l with active_render := false }) l).name = l.name := rfl

/-- What `verify_and_fix_uv2` establishes on one mesh object: afterwards the
`LightmapUV` layer exists and is flagged active-render, and its data is the
layer's previous data when the layer already existed, else a 1:1 copy of
layer 0's data. -/
theorem verifyFixMesh_spec (initDat : List UVCoord) (m : MeshData)
    (b : UVLayer) (hb : m.uv_layers.get? 0 = some b)
    (hblen : b.data.length = m.loops.length)
    (hilen : initDat.length = m.loops.length) :
    (((verifyFixMesh initDat m).uv_layers.find?
        (fun l => l.name == LIGHTMAP_UV_NAME)).map UVLayer.active_render =
      some true) ∧
    (((verifyFixMesh initDat m).uv_layers.find?
        (fun l => l.name == LIGHTMAP_UV_NAME)).map UVLayer.data =
      ((m.uv_layers.find? (fun l => l.name == LIGHTMAP_UV_NAME)).map
          UVLayer.data).or ((m.uv_layers.get? 0).map UVLayer.data)) := by
  unfold verifyFixMesh
  by_cases hpres : (m.uv_layers.find? (fun l => l.name == LIGHTMAP_UV_NAME)).isSome
  · rw [if_pos hpres]
    obtain ⟨L, hL⟩ := Option.isSome_iff_exists.mp hpres
    rw [find?_map_name _ verifyG_name, hL]
    have hname := List.find?_some hL
    constructor
    · simp [beq_iff_eq.mp hname]
    · simp [beq_iff_eq.mp hname]
  · rw [if_neg hpres]
    rw [hb]
    have hnone := Option.not_isSome_iff_eq_none.mp hpres
    have hmapnone : ((m.uv_layers.map
        (fun l : UVLayer => { l with active_render := false })).find?
          (fun l => l.name == LIGHTMAP_UV_NAME)) = none := by
      rw [find?_map_name _ clearG_name, hnone]
      rfl
    rw [List.find?_append, hmapnone]
    simp only [Option.none_or]
    rw [hnone]
    constructor
    · simp [LIGHTMAP_UV_NAME, List.find?]
    · simp only [List.find?, LIGHTMAP_UV_NAME]
      simp [copyLayerData_id b.data initDat m.loops.length hblen hilen, hb]

/-- Claim C8.  The verification stage is total and statistics-only: the
output list has the same length as the input (no abort, however many objects
were missing the channel), every mesh object's result carries an
active-render `LightmapUV` layer, and that layer's data is the pre-existing
data when the channel was present, else a 1:1 copy of the base (index-0)
channel's per-loop data (`.or` folds the two cases). -/
theorem C8_verify_stage (fallbackInit : String → List UVCoord)
    (objects : List XObject) (o : XObject) (b : UVLayer)
    (ho : o ∈ objects) (hm : o.otype = "MESH")
    (hb : o.mesh.uv_layers.get? 0 = some b)
    (hblen : b.data.length = o.mesh.loops.length)
    (hilen : (fallbackInit o.name).length = o.mesh.loops.length) :
    ((verify_and_fix_uv2 fallbackInit objects).length = objects.length) ∧
    ({ o with mesh := verifyFixMesh (fallbackInit o.name) o.mesh } ∈
        verify_and_fix_uv2 fallbackInit objects) ∧
    (((verifyFixMesh (fallbackInit o.name) o.mesh).uv_layers.find?
        (fun l => l.name == LIGHTMAP_UV_NAME)).map UVLayer.active_render =
      some true) ∧
    (((verifyFixMesh (fallbackInit o.name) o.mesh).uv_layers.find?
        (fun l => l.name == LIGHTMAP_UV_NAME)).map UVLayer.data =
      ((o.mesh.uv_layers.find? (fun l => l.name == LIGHTMAP_UV_NAME)).map
          UVLayer.data).or ((o.mesh.uv_layers.get? 0).map UVLayer.data)) := by
  have hspec := verifyFixMesh_spec (fallbackInit o.name) o.mesh b hb hblen hilen
  refine ⟨?_, ?_, hspec.1, hspec.2⟩
  · unfold verify_and_fix_uv2
    rw [List.length_map]
  · unfold verify_and_fix_uv2
    apply List.mem_map.mpr
    exact ⟨o, ho, by simp [hm]⟩

/-- Claim C8 witness: an object arriving without any `LightmapUV` channel
gets one fabricated (its data a copy of layer 0), flagged active-render, and
the stage keeps the object count. -/
theorem C8_verify_stage_witness :
    ((verify_and_fix_uv2 (fun _ => [⟨0, 0⟩, ⟨0, 0⟩, ⟨0, 0⟩]) [sampleBare]).length =
      [sampleBare].length) ∧
    ({ sampleBare with
        mesh := verifyFixMesh ((fun _ => [⟨0, 0⟩, ⟨0, 0⟩, ⟨0, 0⟩]) sampleBare.name)
          sampleBare.mesh } ∈
      verify_and_fix_uv2 (fun _ => [⟨0, 0⟩, ⟨0, 0⟩, ⟨0, 0⟩]) [sampleBare]) ∧
    (((verifyFixMesh ((fun _ => [⟨0, 0⟩, ⟨0, 0⟩, ⟨0, 0⟩]) sampleBare.name)
        sampleBare.mesh).uv_layers.find?
          (fun l => l.name == LIGHTMAP_UV_NAME)).map UVLayer.active_render =
      some true) ∧
    (((verifyFixMesh ((fun _ => [⟨0, 0⟩, ⟨0, 0⟩, ⟨0, 0⟩]) sampleBare.name)
        sampleBare.mesh).uv_layers.find?
          (fun l => l.name == LIGHTMAP_UV_NAME)).map UVLayer.data =
      ((sampleBare.mesh.uv_layers.find? (fun l => l.name == LIGHTMAP_UV_NAME)).map
          UVLayer.data).or
        ((sampleBare.mesh.uv_layers.get? 0).map UVLayer.data)) :=
  C8_verify_stage (fun _ => [⟨0, 0⟩, ⟨0, 0⟩, ⟨0, 0⟩]) [sampleBare] sampleBare
    { name := "UVMap", data := [⟨0, 0⟩, ⟨1, 0⟩, ⟨0, 1⟩],
      active := true, active_render := true }
    (by decide) (by decide) (by decide) (by decide) (by decide)

/-- Claim C7 (code-bug evidence).  The pre-export filter of
`clean_lightmap_nodes_from_materials` compares `node.type` against the
creation identifier `'ShaderNodeTexImage'`, but the host's type enum of an
image-texture node reads `'TEX_IMAGE'`.  The baked-lightmap node — whose
image name plainly passes the lightmap-image test — therefore fails the
filter, the cleanup inside `export_mansion_glb` removes nothing, and the
object handed to the glTF exporter still carries the lightmap-image-bearing
texture node. -/
theorem C7_cleanup_is_noop_on_host_nodes :
    (isLightmapImageName "Mansion_Lightmap_On" = true) ∧
    (isLightmapTexNode (bakedLightmapTexNode "Mansion_Lightmap_On") = false) ∧
    (export_mansion_glb [sampleGObjBaked] = [sampleGObjBaked]) ∧
    (bakedLightmapTexNode "Mansion_Lightmap_On" ∈ sampleMatBaked.nodes) ∧
    (("TEX_IMAGE" : String) ≠ "ShaderNodeTexImage") := by
  refine ⟨by decide, by decide, by decide, by decide, by decide⟩

/-- Claim C10.  On a collection with exactly one mesh object, the pipeline
works on the original object itself: the join stage hands back the original
(no duplicate is created), so the vertex-merge / normal / triangulation
cleanup, the lightmap unwrap and the self-transfer are applied to the
original's own mesh, and the final hide sets the original's `hide_viewport`
and `hide_render` — the run mutates the original's geometry and visibility
instead of preserving them. -/
theorem C10_single_object_mutates_original
    (dupJoin : List String → Scene → List String × Scene)
    (hostClean hostUnwrap : MeshData → MeshData) (newDat : List UVCoord)
    (initData fallbackInit : String → List UVCoord) (o : PSObject)
    (hm : o.otype = "MESH") :
    join_objects dupJoin [o.name] [o] = ([o.name], [o.name], [o]) ∧
    main_object_flow dupJoin hostClean hostUnwrap newDat initData fallbackInit
        [o.name] [o] =
      [{ o with
          mesh := single_object_mesh_effect hostClean hostUnwrap newDat initData
            fallbackInit o.name o.mesh,
          hide_viewport := true, hide_render := true }] := by
  constructor
  · simp [join_objects]
  · unfold main_object_flow
    simp only [join_objects, List.length_singleton, le_refl, if_pos]
    unfold cleanup_meshes setup_uvs_scene updateMeshByName
    simp only [List.foldl_cons, List.foldl_nil, List.map_cons, List.map_nil,
      beq_self_eq_true, if_pos]
    unfold single_object_mesh_effect
    unfold transfer_uvs_scene
    simp only [List.find?_cons_of_pos, beq_self_eq_true]
    cases hf : (markActiveLayer LIGHTMAP_UV_NAME (markActiveLayer "UVMap"
        (hostUnwrap { hostClean o.mesh with
          uv_layers := setupUVLayers newDat (hostClean o.mesh).uv_layers }))).uv_layers.find?
        (fun l => l.name == LIGHTMAP_UV_NAME) with
    | none =>
      simp only [hf]
      unfold verify_uv2_scene hide_baker
      simp [hm]
    | some srcLayer =>
      simp only [hf]
      unfold verify_uv2_scene hide_baker
      simp [hm]

/-- Claim C10 witness: a concrete one-object run (host operators
instantiated with a vertex-dropping cleanup) ends with the original object
itself transformed and hidden. -/
theorem C10_single_object_mutates_original_witness :
    join_objects (fun _ s => ([], s)) ["Hall"]
        [{ name := "Hall", otype := "MESH", mesh := sampleBare.mesh,
           hide_viewport := false, hide_render := false }] =
      (["Hall"], ["Hall"],
        [{ name := "Hall", otype := "MESH", mesh := sampleBare.mesh,
           hide_viewport := false, hide_render := false }]) ∧
    main_object_flow (fun _ s => ([], s))
        (fun m => { m with vertices := [] }) id [] (fun _ => []) (fun _ => [])
        ["Hall"]
        [{ name := "Hall", otype := "MESH", mesh := sampleBare.mesh,
           hide_viewport := false, hide_render := false }] =
      [{ name := "Hall", otype := "MESH",
         mesh := single_object_mesh_effect (fun m => { m with vertices := [] }) id
           [] (fun _ => []) (fun _ => []) "Hall" sampleBare.mesh,
         hide_viewport := true, hide_render := true }] :=
  C10_single_object_mutates_original (fun _ s => ([], s))
    (fun m => { m with vertices := [] }) id [] (fun _ => []) (fun _ => [])
    { name := "Hall", otype := "MESH", mesh := sampleBare.mesh,
      hide_viewport := false, hide_render := false }
    (by decide)

end CGV
